import Mathlib

/-!
Shallow embedding of the Lennox S30 cloud client
(src/api/s30: types.ts, LennoxS30Client.ts, constants.ts) for checking the
specification's claims.

Numbers are modelled as rationals (the JavaScript values involved are plain
decimal numbers on which double arithmetic is exact for every input used
here), JavaScript `Map`s as association lists in insertion order, `null` /
`undefined` as `Option.none`, and thrown `LennoxS30Error`s as an explicit
error result threaded next to the (otherwise mutated-in-place) state.
Network I/O is made explicit: every function that performs requests takes
the sequence of outcomes the transport would deliver as an argument.
-/

namespace LennoxS30

/-- `this.field = fragment.field` guarded by `fragment.field !== undefined`:
a present optional value overwrites, an absent one keeps the old value. -/
def ovr {α : Type} (old : α) (new : Option α) : α :=
  match new with
  | none => old
  | some v => v

/-- Overwrite of a nullable field (`number | null` in the class) by a present
fragment value: `this.temperature = data.status.temperature`. -/
def ovrSome {α : Type} (old : Option α) (new : Option α) : Option α :=
  match new with
  | none => old
  | some v => some v

/-- `this.zoneEnabled = data.config.zoneEnabled === 1` guarded by presence. -/
def ovrEnabled (old : Bool) (new : Option ℚ) : Bool :=
  match new with
  | none => old
  | some v => decide (v = 1)

/-! ## Update fragments (types.ts: `ZoneData` with `Partial` sub-objects)

Every field of a fragment is present-or-absent, so each is an `Option`. -/

/-- `Partial<ZonePeriod>` restricted to the fields `updateFromData` reads. -/
structure ZonePeriodFrag where
  systemMode : Option String
  fanMode : Option String
  humidityMode : Option String
  csp : Option ℚ
  cspC : Option ℚ
  hsp : Option ℚ
  hspC : Option ℚ
  sp : Option ℚ
  spC : Option ℚ
  husp : Option ℚ
  desp : Option ℚ
  deriving Repr, DecidableEq

/-- `Partial<ZoneStatus>` restricted to the fields `updateFromData` reads. -/
structure ZoneStatusFrag where
  temperature : Option ℚ
  temperatureC : Option ℚ
  temperatureStatus : Option String
  humidity : Option ℚ
  humidityStatus : Option String
  fan : Option Bool
  damper : Option ℚ
  demand : Option ℚ
  ventilation : Option Bool
  allergenDefender : Option Bool
  heatCoast : Option Bool
  coolCoast : Option Bool
  defrost : Option Bool
  aux : Option Bool
  tempOperation : Option String
  humOperation : Option String
  period : Option ZonePeriodFrag
  deriving Repr, DecidableEq

/-- `Partial<ZoneConfig>` restricted to the fields `updateFromData` reads. -/
structure ZoneConfigFrag where
  name : Option String
  heatingOption : Option Bool
  coolingOption : Option Bool
  emergencyHeatingOption : Option Bool
  humidificationOption : Option Bool
  dehumidificationOption : Option Bool
  minCsp : Option ℚ
  maxCsp : Option ℚ
  minCspC : Option ℚ
  maxCspC : Option ℚ
  minHsp : Option ℚ
  maxHsp : Option ℚ
  minHspC : Option ℚ
  maxHspC : Option ℚ
  zoneEnabled : Option ℚ
  deriving Repr, DecidableEq

/-- `ZoneData`: one zone fragment of an inbound message. -/
structure ZoneData where
  id : Nat
  config : Option ZoneConfigFrag
  status : Option ZoneStatusFrag
  deriving Repr, DecidableEq

/-- The fragment's `config.f` when the `config` sub-object and the field are
both present. -/
def cfgField {α : Type} (d : ZoneData) (f : ZoneConfigFrag → Option α) : Option α :=
  d.config.bind f

/-- The fragment's `status.f` when the `status` sub-object and the field are
both present. -/
def stField {α : Type} (d : ZoneData) (f : ZoneStatusFrag → Option α) : Option α :=
  d.status.bind f

/-- The fragment's `status.period.f` when `status`, `period` and the field
are all present. -/
def perField {α : Type} (d : ZoneData) (f : ZonePeriodFrag → Option α) : Option α :=
  (d.status.bind (fun s => s.period)).bind f

/-! ## The zone runtime model (types.ts: class `LennoxZone`) -/

structure LennoxZone where
  id : Nat
  name : String
  systemId : String
  systemName : String
  productType : String
  firmwareVersion : String
  numberOfZones : ℚ
  heatingOption : Bool
  coolingOption : Bool
  emergencyHeatingOption : Bool
  humidificationOption : Bool
  dehumidificationOption : Bool
  minCsp : ℚ
  maxCsp : ℚ
  minCspC : ℚ
  maxCspC : ℚ
  minHsp : ℚ
  maxHsp : ℚ
  minHspC : ℚ
  maxHspC : ℚ
  temperature : Option ℚ
  temperatureC : Option ℚ
  temperatureStatus : String
  humidity : Option ℚ
  humidityStatus : String
  csp : ℚ
  cspC : ℚ
  hsp : ℚ
  hspC : ℚ
  sp : ℚ
  spC : ℚ
  husp : ℚ
  desp : ℚ
  systemMode : String
  fanMode : String
  humidityMode : String
  tempOperation : String
  humOperation : String
  fan : Bool
  damper : ℚ
  demand : ℚ
  ventilation : Bool
  allergenDefender : Bool
  heatCoast : Bool
  coolCoast : Bool
  defrost : Bool
  aux : Bool
  zoneEnabled : Bool

/-- `new LennoxZone(id, name, systemId)`: the constructor together with the
class field initializers. -/
def newLennoxZone (id : Nat) (name : String) (systemId : String) : LennoxZone where
  id := id
  name := name
  systemId := systemId
  systemName := ""
  productType := "S30"
  firmwareVersion := "1.0"
  numberOfZones := 1
  heatingOption := false
  coolingOption := false
  emergencyHeatingOption := false
  humidificationOption := false
  dehumidificationOption := false
  minCsp := 60
  maxCsp := 99
  minCspC := 31/2
  maxCspC := 37
  minHsp := 40
  maxHsp := 90
  minHspC := 9/2
  maxHspC := 32
  temperature := none
  temperatureC := none
  temperatureStatus := "good"
  humidity := none
  humidityStatus := "good"
  csp := 78
  cspC := 51/2
  hsp := 68
  hspC := 20
  sp := 73
  spC := 45/2
  husp := 40
  desp := 50
  systemMode := "off"
  fanMode := "auto"
  humidityMode := "off"
  tempOperation := "off"
  humOperation := "off"
  fan := false
  damper := 0
  demand := 0
  ventilation := false
  allergenDefender := false
  heatCoast := false
  coolCoast := false
  defrost := false
  aux := false
  zoneEnabled := false

/-- `isActive()`: `return this.temperature !== null`. -/
def LennoxZone.isActive (z : LennoxZone) : Bool :=
  z.temperature.isSome

/-- The `if (data.config) { ... }` block of `updateFromData`. -/
def applyConfig (z : LennoxZone) (c : ZoneConfigFrag) : LennoxZone :=
  { z with
    name := ovr z.name c.name
    heatingOption := ovr z.heatingOption c.heatingOption
    coolingOption := ovr z.coolingOption c.coolingOption
    emergencyHeatingOption := ovr z.emergencyHeatingOption c.emergencyHeatingOption
    humidificationOption := ovr z.humidificationOption c.humidificationOption
    dehumidificationOption := ovr z.dehumidificationOption c.dehumidificationOption
    minCsp := ovr z.minCsp c.minCsp
    maxCsp := ovr z.maxCsp c.maxCsp
    minCspC := ovr z.minCspC c.minCspC
    maxCspC := ovr z.maxCspC c.maxCspC
    minHsp := ovr z.minHsp c.minHsp
    maxHsp := ovr z.maxHsp c.maxHsp
    minHspC := ovr z.minHspC c.minHspC
    maxHspC := ovr z.maxHspC c.maxHspC
    zoneEnabled := ovrEnabled z.zoneEnabled c.zoneEnabled }

/-- The `if (data.status.period) { ... }` block of `updateFromData`. -/
def applyPeriod (z : LennoxZone) (p : ZonePeriodFrag) : LennoxZone :=
  { z with
    systemMode := ovr z.systemMode p.systemMode
    fanMode := ovr z.fanMode p.fanMode
    humidityMode := ovr z.humidityMode p.humidityMode
    csp := ovr z.csp p.csp
    cspC := ovr z.cspC p.cspC
    hsp := ovr z.hsp p.hsp
    hspC := ovr z.hspC p.hspC
    sp := ovr z.sp p.sp
    spC := ovr z.spC p.spC
    husp := ovr z.husp p.husp
    desp := ovr z.desp p.desp }

/-- The `if (data.status) { ... }` block of `updateFromData`. -/
def applyStatus (z : LennoxZone) (s : ZoneStatusFrag) : LennoxZone :=
  let z1 :=
    { z with
      temperature := ovrSome z.temperature s.temperature
      temperatureC := ovrSome z.temperatureC s.temperatureC
      temperatureStatus := ovr z.temperatureStatus s.temperatureStatus
      humidity := ovrSome z.humidity s.humidity
      humidityStatus := ovr z.humidityStatus s.humidityStatus
      fan := ovr z.fan s.fan
      damper := ovr z.damper s.damper
      demand := ovr z.demand s.demand
      ventilation := ovr z.ventilation s.ventilation
      allergenDefender := ovr z.allergenDefender s.allergenDefender
      heatCoast := ovr z.heatCoast s.heatCoast
      coolCoast := ovr z.coolCoast s.coolCoast
      defrost := ovr z.defrost s.defrost
      aux := ovr z.aux s.aux
      tempOperation := ovr z.tempOperation s.tempOperation
      humOperation := ovr z.humOperation s.humOperation }
  match s.period with
  | none => z1
  | some p => applyPeriod z1 p

/-- `updateFromData(data)`: config block, then status block (whose tail is
the period block); each guarded field-by-field by presence.
(`notifyUpdate()` at the end only invokes observers and changes no state.) -/
def LennoxZone.updateFromData (z : LennoxZone) (d : ZoneData) : LennoxZone :=
  let z1 :=
    match d.config with
    | none => z
    | some c => applyConfig z c
  match d.status with
  | none => z1
  | some s => applyStatus z1 s

/-- A status fragment with every field absent. -/
def emptyStatusFrag : ZoneStatusFrag where
  temperature := none
  temperatureC := none
  temperatureStatus := none
  humidity := none
  humidityStatus := none
  fan := none
  damper := none
  demand := none
  ventilation := none
  allergenDefender := none
  heatCoast := none
  coolCoast := none
  defrost := none
  aux := none
  tempOperation := none
  humOperation := none
  period := none

/-- The spec's example fragment shape: `{status: {temperature: t}}` and
nothing else. -/
def tempOnlyFrag (t : ℚ) : ZoneData where
  id := 0
  config := none
  status := some { emptyStatusFrag with temperature := some t }

/-- A fragment whose status is present but carries no temperature. -/
def noTempFrag : ZoneData where
  id := 0
  config := none
  status := some emptyStatusFrag

/-- Whether a zone fragment carries a temperature value in its status. -/
def hasTemperature (d : ZoneData) : Bool :=
  (stField d (fun s => s.temperature)).isSome

/-- A sequence of inbound zone fragments applied in order. -/
def applyAll (z : LennoxZone) (ds : List ZoneData) : LennoxZone :=
  ds.foldl LennoxZone.updateFromData z

/-! ## JavaScript `Map`s as association lists in insertion order -/

/-- `map.get(k)`. -/
def mapGet {κ α : Type} [DecidableEq κ] (m : List (κ × α)) (k : κ) : Option α :=
  match m with
  | [] => none
  | (k1, v) :: rest => if k1 = k then some v else mapGet rest k

/-- `map.set(k, v)`: replaces the value in place when the key exists,
appends otherwise. -/
def mapSet {κ α : Type} [DecidableEq κ] (m : List (κ × α)) (k : κ) (v : α) :
    List (κ × α) :=
  match m with
  | [] => [(k, v)]
  | (k1, v1) :: rest => if k1 = k then (k, v) :: rest else (k1, v1) :: mapSet rest k v

/-! ## The system runtime model (types.ts: class `LennoxSystem`) -/

structure LennoxSystem where
  sysId : String
  name : String
  productType : String
  temperatureUnit : String
  outdoorTemperature : ℚ
  outdoorTemperatureC : ℚ
  outdoorTemperatureStatus : String
  zoningMode : String
  singleSetpointMode : Bool
  numberOfZones : ℚ
  sysUpTime : ℚ
  cloudStatus : String
  zones : List (Nat × LennoxZone)

/-- `new LennoxSystem(sysId, name)`: constructor plus field initializers. -/
def newLennoxSystem (sysId : String) (name : String) : LennoxSystem where
  sysId := sysId
  name := name
  productType := "S30"
  temperatureUnit := "F"
  outdoorTemperature := 0
  outdoorTemperatureC := 0
  outdoorTemperatureStatus := "good"
  zoningMode := "central"
  singleSetpointMode := false
  numberOfZones := 1
  sysUpTime := 0
  cloudStatus := "online"
  zones := []

/-- `getOrCreateZone(id)`: the found or freshly created zone, together with
the system as it is afterwards. -/
def LennoxSystem.getOrCreateZone (s : LennoxSystem) (id : Nat) :
    LennoxZone × LennoxSystem :=
  match mapGet s.zones id with
  | some z => (z, s)
  | none =>
    let z := newLennoxZone id ("Zone " ++ toString (id + 1)) s.sysId
    (z, { s with zones := mapSet s.zones id z })

/-- The `options` sub-object of a system config fragment. -/
structure SysOptionsFrag where
  productType : Option String

/-- `SystemConfig` restricted to the fields `updateFromConfig` reads. -/
structure SysConfigFrag where
  name : String
  temperatureUnit : String
  options : Option SysOptionsFrag

/-- `config.options.productType || 'S30'`: absent or empty falls back. -/
def productTypeOrDefault (v : Option String) : String :=
  match v with
  | none => "S30"
  | some s => if s = "" then "S30" else s

/-- `updateFromConfig(config)`. -/
def LennoxSystem.updateFromConfig (s : LennoxSystem) (c : SysConfigFrag) :
    LennoxSystem :=
  let s1 := { s with name := c.name, temperatureUnit := c.temperatureUnit }
  match c.options with
  | none => s1
  | some o => { s1 with productType := productTypeOrDefault o.productType }

/-- `SystemStatus` restricted to the fields `updateFromStatus` reads. -/
structure SysStatusFrag where
  outdoorTemperature : ℚ
  outdoorTemperatureC : ℚ
  outdoorTemperatureStatus : String
  zoningMode : String
  singleSetpointMode : Bool
  numberOfZones : ℚ

/-- `updateFromStatus(status)`. -/
def LennoxSystem.updateFromStatus (s : LennoxSystem) (st : SysStatusFrag) :
    LennoxSystem :=
  { s with
    outdoorTemperature := st.outdoorTemperature
    outdoorTemperatureC := st.outdoorTemperatureC
    outdoorTemperatureStatus := st.outdoorTemperatureStatus
    zoningMode := st.zoningMode
    singleSetpointMode := st.singleSetpointMode
    numberOfZones := st.numberOfZones }

/-- `SystemTime` restricted to the field `updateFromTime` reads. -/
structure SysTimeFrag where
  sysUpTime : ℚ

/-- `updateFromTime(time)`. -/
def LennoxSystem.updateFromTime (s : LennoxSystem) (t : SysTimeFrag) :
    LennoxSystem :=
  { s with sysUpTime := t.sysUpTime }

/-- The client's private `processZonesData`: get-or-create each zone, apply
the fragment, copy the system display fields onto the zone, store it back.
(The update-callback invocations change no client state.) -/
def clientProcessZonesData (sys : LennoxSystem) (zs : List ZoneData) :
    LennoxSystem :=
  zs.foldl
    (fun s zd =>
      let zp := s.getOrCreateZone zd.id
      let s1 := zp.2
      let z1 := zp.1.updateFromData zd
      let z2 := { z1 with
        systemName := s1.name
        productType := s1.productType
        numberOfZones := s1.numberOfZones }
      { s1 with zones := mapSet s1.zones zd.id z2 })
    sys

/-- The `system` sub-object of a message's `Data`. -/
structure SystemDataFrag where
  config : Option SysConfigFrag
  status : Option SysStatusFrag
  time : Option SysTimeFrag

/-- A message's `Data` payload. -/
structure MessageDataFrag where
  system : Option SystemDataFrag
  zones : Option (List ZoneData)

/-- One retrieved message (`PropertyChangeMessage`): its sender id
(`SenderID || SenderId`) and its optional `Data`. -/
structure Message where
  senderId : Option String
  data : Option MessageDataFrag

/-- `processMessage(message, system)` without the early sender lookup:
route the system-level fragment, then the zone fragments. -/
def processMessageData (sys : LennoxSystem) (d : MessageDataFrag) : LennoxSystem :=
  let s1 :=
    match d.system with
    | none => sys
    | some sd =>
      let sa := match sd.config with
        | none => sys
        | some c => sys.updateFromConfig c
      let sb := match sd.status with
        | none => sa
        | some st => sa.updateFromStatus st
      match sd.time with
      | none => sb
      | some t => sb.updateFromTime t
  match d.zones with
  | none => s1
  | some zs => clientProcessZonesData s1 zs

/-! ## Client state, errors and constants
(LennoxS30Client.ts together with constants.ts) -/

/-- The error codes a thrown `LennoxS30Error` carries in the paths modelled
here (`EC_AUTHENTICATE`, `EC_LOGIN`, `EC_UNAUTHORIZED`, `EC_COMMS_ERROR`),
each with the error message. -/
inductive LxError where
  | authenticateFailed (msg : String)
  | loginFailed (msg : String)
  | unauthorized (msg : String)
  | commsError (msg : String)
  deriving Repr, DecidableEq

/-- `error.errorCode === EC_UNAUTHORIZED`. -/
def LxError.isUnauthorized (e : LxError) : Bool :=
  match e with
  | .unauthorized _ => true
  | _ => false

/-- The client's mutable fields the modelled operations touch:
authentication state and the discovered systems. -/
structure ClientState where
  certificateToken : Option String
  loginBearerToken : Option String
  tokenExpiry : ℚ
  systems : List (String × LennoxSystem)

/-- `TOKEN_REFRESH_BUFFER = 300` seconds. -/
def TOKEN_REFRESH_BUFFER : ℚ := 300

/-- `needsTokenRefresh()`: `now >= (this.tokenExpiry - TOKEN_REFRESH_BUFFER)`
where `now` is the current Unix time in seconds. -/
def needsTokenRefresh (now : ℚ) (st : ClientState) : Bool :=
  decide (now ≥ st.tokenExpiry - TOKEN_REFRESH_BUFFER)

/-! ## authenticate() -/

/-- What the transport delivers for one authenticate attempt: a thrown
`LennoxS30Error` (`request` wraps every transport-level failure into one
with code `EC_COMMS_ERROR`), or a response with status, body text and the
certificate token found in the parsed body, if any. -/
inductive AttemptOutcome where
  | transportError (msg : String)
  | response (status : Nat) (text : String) (token : Option String)
  deriving Repr, DecidableEq

/-- `maxRetries = 5`. -/
def MAX_AUTH_RETRIES : Nat := 5

/-- The `lastError` text recorded for a non-200 authenticate response. -/
def retryMessage (retry : Nat) (status : Nat) (text : String) : String :=
  "Authenticate failed - retry [" ++ toString retry ++ "] of [" ++
    toString (MAX_AUTH_RETRIES - 1) ++ "] status [" ++ toString status ++
    "] text [" ++ text ++ "]"

/-- The retry loop of `authenticate()`. Per attempt: a thrown
`LennoxS30Error` is rethrown by the catch (`instanceof LennoxS30Error`)
and ends the loop; a 200 response stores the token and succeeds (or, when
the body held no token, throws `EC_AUTHENTICATE` which the catch also
rethrows); any other status only updates `lastError` and retries.
Exhaustion throws `EC_AUTHENTICATE` with the last recorded text.
(The catch's other branch — record the error text and retry — is
unreachable, because `request` wraps every failure it sees into a thrown
`LennoxS30Error`.) -/
def authenticateLoop (st : ClientState) (retry : Nat) (lastError : String) :
    List AttemptOutcome → ClientState × Option LxError
  | [] => (st, some (.authenticateFailed lastError))
  | o :: rest =>
    match o with
    | .transportError msg => (st, some (.commsError msg))
    | .response status text token =>
      if status = 200 then
        let st1 := { st with certificateToken := token }
        match token with
        | some tok =>
          if tok = "" then
            (st1, some (.authenticateFailed "No certificate token in authenticate response"))
          else (st1, none)
        | none =>
          (st1, some (.authenticateFailed "No certificate token in authenticate response"))
      else
        authenticateLoop st (retry + 1) (retryMessage retry status text) rest

/-- `authenticate()` over the outcomes of its (at most `maxRetries`)
attempts. -/
def authenticate (st : ClientState) (attempts : List AttemptOutcome) :
    ClientState × Option LxError :=
  authenticateLoop st 0 "" (attempts.take MAX_AUTH_RETRIES)

/-! ## login() and processLoginResponse() -/

/-- `security.userToken` of a parsed login response. -/
structure UserTok where
  encoded : String
  expiryTime : ℚ

/-- One entry of a home's `systems` array. -/
structure HomeSystemRec where
  sysId : String

/-- One entry of `readyHomes.homes`. -/
structure HomeRec where
  name : String
  systems : List HomeSystemRec

/-- A parsed login response body: the user token (if present), the home
enumeration and the optional `myPresence` map. -/
structure LoginResp where
  userToken : Option UserTok
  homes : List HomeRec
  myPresence : Option (List (String × String))

/-- The parse of an empty or non-JSON body (`data = {}`). -/
def emptyLoginResp : LoginResp where
  userToken := none
  homes := []
  myPresence := none

/-- `system.cloudStatus = response.myPresence[sysId] || 'unknown'` when
`myPresence` is present; untouched otherwise. -/
def presenceLookup (pres : Option (List (String × String))) (sysId : String)
    (current : String) : String :=
  match pres with
  | none => current
  | some l =>
    match mapGet l sysId with
    | none => "unknown"
    | some s => if s = "" then "unknown" else s

/-- The body of the nested discovery loop of `processLoginResponse`: build a
fresh `LennoxSystem` for one enumerated home system and `systems.set` it. -/
def discoverSystem (systems : List (String × LennoxSystem)) (homeName : String)
    (pres : Option (List (String × String))) (hs : HomeSystemRec) :
    List (String × LennoxSystem) :=
  let sys := newLennoxSystem hs.sysId homeName
  let sys1 := { sys with cloudStatus := presenceLookup pres hs.sysId sys.cloudStatus }
  mapSet systems hs.sysId sys1

/-- The inner loop over one home's `systems` array. -/
def discoverInHome (pres : Option (List (String × String))) (homeName : String)
    (systems : List (String × LennoxSystem)) (hss : List HomeSystemRec) :
    List (String × LennoxSystem) :=
  hss.foldl (fun acc hs => discoverSystem acc homeName pres hs) systems

/-- The outer loop over `readyHomes.homes`. -/
def discoverAll (pres : Option (List (String × String)))
    (systems : List (String × LennoxSystem)) (homes : List HomeRec) :
    List (String × LennoxSystem) :=
  homes.foldl (fun acc h => discoverInHome pres h.name acc h.systems) systems

/-- `processLoginResponse(response)`: require the user token, store the
bearer token and its expiry, then run the discovery loops. -/
def processLoginResponse (st : ClientState) (resp : LoginResp) :
    ClientState × Option LxError :=
  match resp.userToken with
  | none => (st, some (.loginFailed "No user token in login response"))
  | some ut =>
    let st1 := { st with
      loginBearerToken := some ut.encoded
      tokenExpiry := ut.expiryTime }
    ({ st1 with systems := discoverAll resp.myPresence st1.systems resp.homes }, none)

/-- The sysIds one home enumerates. -/
def homeIds (h : HomeRec) : List String :=
  h.systems.map (fun hs => hs.sysId)

/-- Every sysId enumerated by a login response. -/
def listedIds (resp : LoginResp) : List String :=
  resp.homes.flatMap homeIds

/-- The key maps to a freshly constructed system: one with no zones. -/
def freshAt (m : List (String × LennoxSystem)) (k : String) : Prop :=
  ∃ s, mapGet m k = some s ∧ s.zones = []

/-- What the transport delivers for the login request. -/
inductive LoginOutcome where
  | transportError (msg : String)
  | response (status : Nat) (text : String) (body : Option LoginResp)

/-- `login()`: requires a (truthy) certificate token, then posts the
credentials; non-200 throws `EC_LOGIN`; a 200 response is processed by
`processLoginResponse`. A thrown transport `LennoxS30Error` is rethrown
unchanged by the catch. -/
def login (st : ClientState) (o : LoginOutcome) : ClientState × Option LxError :=
  match st.certificateToken with
  | none => (st, some (.loginFailed "No certificate token - authenticate first"))
  | some c =>
    if c = "" then (st, some (.loginFailed "No certificate token - authenticate first"))
    else
      match o with
      | .transportError msg => (st, some (.commsError msg))
      | .response status text body =>
        if status = 200 then
          processLoginResponse st (body.getD emptyLoginResp)
        else
          (st, some (.loginFailed
            ("Login failed - status [" ++ toString status ++ "] response [" ++ text ++ "]")))

/-- The transport outcomes one `serverConnect()` consumes. -/
structure ConnectEnv where
  auth : List AttemptOutcome
  loginOutcome : LoginOutcome

/-- `serverConnect()`: `authenticate()` then `login()`. -/
def serverConnect (st : ClientState) (env : ConnectEnv) :
    ClientState × Option LxError :=
  match authenticate st env.auth with
  | (st1, some e) => (st1, some e)
  | (st1, none) => login st1 env.loginOutcome

/-! ## subscribe() and the message pump -/

/-- What the transport delivers for one `requestData` call. -/
inductive ReqOutcome where
  | transportError (msg : String)
  | response (status : Nat) (text : String)
  deriving Repr, DecidableEq

/-- `requestData(system, jsonPath)`: requires a (truthy) bearer token;
non-200 throws `EC_COMMS_ERROR`. It changes no client state. -/
def requestData (st : ClientState) (o : ReqOutcome) : Option LxError :=
  match st.loginBearerToken with
  | none => some (.unauthorized "Not logged in")
  | some b =>
    if b = "" then some (.unauthorized "Not logged in")
    else
      match o with
      | .transportError msg => some (.commsError msg)
      | .response status text =>
        if status = 200 then none
        else some (.commsError
          ("RequestData failed - status [" ++ toString status ++ "] response [" ++ text ++ "]"))

/-- `subscribe(system)`: bearer-token check, then the two `requestData`
calls; the first failure propagates. -/
def subscribe (st : ClientState) (o1 o2 : ReqOutcome) : Option LxError :=
  match st.loginBearerToken with
  | none => some (.unauthorized "Not logged in")
  | some b =>
    if b = "" then some (.unauthorized "Not logged in")
    else
      match requestData st o1 with
      | some e => some e
      | none => requestData st o2

/-- `for (const system of this.systems.values()) await this.subscribe(system)`:
subscribes in order, stopping at the first failure; the outcomes of the
i-th system's two `requestData` calls are supplied by the environment. -/
def subscribeAllFrom (st : ClientState) (outcomes : Nat → ReqOutcome × ReqOutcome) :
    Nat → List (String × LennoxSystem) → Option LxError
  | _, [] => none
  | i, _ :: rest =>
    match subscribe st (outcomes i).1 (outcomes i).2 with
    | some e => some e
    | none => subscribeAllFrom st outcomes (i + 1) rest

def subscribeAll (st : ClientState) (outcomes : Nat → ReqOutcome × ReqOutcome) :
    Option LxError :=
  subscribeAllFrom st outcomes 0 st.systems

/-- What the transport delivers for one retrieve (poll) call: a thrown
transport error, or status, body text and parsed messages. -/
inductive RetrieveOutcome where
  | transportError (msg : String)
  | response (status : Nat) (messages : List Message)

/-- Routing of one retrieved message inside `messagePump`: look the sender
up among the known systems and, when found, apply `processMessage`; a
message with no (truthy) sender or an unknown sender is skipped. -/
def routeMessage (st : ClientState) (m : Message) : ClientState :=
  match m.senderId with
  | none => st
  | some sid =>
    if sid = "" then st
    else
      match mapGet st.systems sid with
      | none => st
      | some sys =>
        match m.data with
        | none => st
        | some d => { st with systems := mapSet st.systems sid (processMessageData sys d) }

/-- The transport outcomes one pump cycle can consume. -/
structure CycleEnv where
  now : ℚ
  connect : ConnectEnv
  retrieve : RetrieveOutcome
  reconnect : ConnectEnv
  reconnectSubs : Nat → ReqOutcome × ReqOutcome

/-- `messagePump()`: refresh the token first when needed (errors from the
refresh propagate); require a bearer token; then retrieve. Inside the try,
a 200 response routes its messages and returns whether there were any, 204
returns false, 401 throws `EC_UNAUTHORIZED`; any other status logs and
returns false; and the catch rethrows unauthorized errors but swallows
everything else, returning false. -/
def messagePump (st : ClientState) (env : CycleEnv) :
    ClientState × Except LxError Bool :=
  let refreshed : ClientState × Option LxError :=
    if needsTokenRefresh env.now st then serverConnect st env.connect else (st, none)
  match refreshed with
  | (st1, some e) => (st1, .error e)
  | (st1, none) =>
    match st1.loginBearerToken with
    | none => (st1, .error (.unauthorized "Not logged in"))
    | some b =>
      if b = "" then (st1, .error (.unauthorized "Not logged in"))
      else
        match env.retrieve with
        | .transportError _ => (st1, .ok false)
        | .response status msgs =>
          if status = 200 then
            if msgs.isEmpty then (st1, .ok false)
            else (msgs.foldl routeMessage st1, .ok true)
          else if status = 204 then (st1, .ok false)
          else if status = 401 then
            (st1, .error (.unauthorized "Unauthorized - token may have expired"))
          else (st1, .ok false)

/-- The pump loop's local state: the client plus `consecutiveErrors`. -/
structure PumpState where
  client : ClientState
  consecutiveErrors : Nat

/-- `MAX_CONSECUTIVE_ERRORS = 5`. -/
def MAX_CONSECUTIVE_ERRORS : Nat := 5

/-- The reconnect block of the pump's catch handler: `serverConnect()` then
subscribe to every known system; its own failures are caught and only
logged. Returns the state afterwards and whether the reconnect succeeded
(on success the caller resets `consecutiveErrors`). -/
def attemptReconnect (st : ClientState) (env : ConnectEnv)
    (subs : Nat → ReqOutcome × ReqOutcome) : ClientState × Bool :=
  match serverConnect st env with
  | (st1, some _) => (st1, false)
  | (st1, none) =>
    match subscribeAll st1 subs with
    | some _ => (st1, false)
    | none => (st1, true)

/-- One iteration of the `while (true)` body of `startMessagePump`: run
`messagePump`; on success reset the error counter; on a thrown error
increment it, then reconnect when the error is unauthorized or the counter
has reached `MAX_CONSECUTIVE_ERRORS`, and otherwise only log. The returned
flag records whether a reconnect was attempted this cycle. -/
def pumpCycle (ps : PumpState) (env : CycleEnv) : PumpState × Bool :=
  match messagePump ps.client env with
  | (st1, .ok _) => ({ client := st1, consecutiveErrors := 0 }, false)
  | (st1, .error e) =>
    let n := ps.consecutiveErrors + 1
    if e.isUnauthorized then
      let r := attemptReconnect st1 env.reconnect env.reconnectSubs
      ({ client := r.1, consecutiveErrors := if r.2 then 0 else n }, true)
    else if MAX_CONSECUTIVE_ERRORS ≤ n then
      let r := attemptReconnect st1 env.reconnect env.reconnectSubs
      ({ client := r.1, consecutiveErrors := if r.2 then 0 else n }, true)
    else
      ({ client := st1, consecutiveErrors := n }, false)

/-- A run of consecutive pump cycles. -/
def runPump (ps : PumpState) (envs : List CycleEnv) : PumpState :=
  envs.foldl (fun p e => (pumpCycle p e).1) ps

/-- The loop condition of the pump loop: `while (true)`. It consults no
client state, and `shutdown()` sets no flag it could consult — nothing in
the client ever makes it false. -/
def pumpLoopGuard (_ : ClientState) : Bool := true

/-- `shutdown()`: clears the certificate token, the bearer token and the
system collection. (It does not touch `tokenExpiry` and signals nothing to
the pump loop.) -/
def shutdown (st : ClientState) : ClientState :=
  { st with certificateToken := none, loginBearerToken := none, systems := [] }

/-! ## Outbound commands: fToC, schedule ids, setTemperature -/

/-- JavaScript `Math.round`: halves round toward positive infinity. -/
def mathRound (x : ℚ) : ℤ :=
  ⌊x + 1/2⌋

/-- `fToC(f)`: `Math.round((f - 32) * 5 / 9 * 10) / 10`. -/
def fToC (f : ℚ) : ℚ :=
  (mathRound ((f - 32) * 5 / 9 * 10) : ℚ) / 10

/-- `getManualModeScheduleId(zone)`: `16 + zone.id`. -/
def getManualModeScheduleId (zone : LennoxZone) : Nat :=
  16 + zone.id

/-- The period payload `setTemperature` builds: each setpoint present only
when the corresponding option was passed. -/
structure PeriodCmd where
  hsp : Option ℚ
  hspC : Option ℚ
  csp : Option ℚ
  cspC : Option ℚ

/-- The command payload published by `setTemperature`: one schedule write
addressing the manual-mode schedule id, with one period of id 0. -/
structure ScheduleCmd where
  scheduleId : Nat
  periods : List (Nat × PeriodCmd)

/-- `setTemperature(zone, {hsp?, csp?})`: `period.hsp = Math.round(hsp)`,
`period.hspC = fToC(hsp)` when `hsp` was passed (symmetrically for `csp`),
addressed at `getManualModeScheduleId(zone)` with period id 0. -/
def setTemperatureCmd (zone : LennoxZone) (hspIn cspIn : Option ℚ) : ScheduleCmd where
  scheduleId := getManualModeScheduleId zone
  periods :=
    [(0,
      { hsp := hspIn.map (fun h => ((mathRound h : ℤ) : ℚ))
        hspC := hspIn.map fToC
        csp := cspIn.map (fun c => ((mathRound c : ℤ) : ℚ))
        cspC := cspIn.map fToC })]

/-! ## Concrete fixtures for witnesses and counterexamples -/

/-- A zone made active by one temperature fragment. -/
def exActiveZone : LennoxZone :=
  (newLennoxZone 0 "Zone 1" "sys1").updateFromData (tempOnlyFrag 70)

/-- A discovered system owning the active zone. -/
def exSystemWithZone : LennoxSystem :=
  { newLennoxSystem "sys1" "Home" with zones := [(0, exActiveZone)] }

/-- A logged-in client holding that system. -/
def exStateBefore : ClientState where
  certificateToken := some "crt"
  loginBearerToken := some "tok"
  tokenExpiry := 2000
  systems := [("sys1", exSystemWithZone)]

/-- A login response re-listing the same system `sys1`. -/
def exLoginResp : LoginResp where
  userToken := some { encoded := "tok2", expiryTime := 9999 }
  homes := [{ name := "Home", systems := [{ sysId := "sys1" }] }]
  myPresence := none

/-- A logged-in client with no systems. -/
def exHealthyClient : ClientState where
  certificateToken := some "crt"
  loginBearerToken := some "tok"
  tokenExpiry := 2000
  systems := []

/-- Connect outcomes for a path that is never reached. -/
def exConnectEnvUnused : ConnectEnv where
  auth := []
  loginOutcome := .transportError "unused"

/-- Connect outcomes for a fully successful authenticate + login. -/
def exConnectEnvGood : ConnectEnv where
  auth := [.response 200 "ok" (some "crt2")]
  loginOutcome := .response 200 "" (some exLoginResp)

/-- Subscription outcomes that always succeed. -/
def exSubsOk : Nat → ReqOutcome × ReqOutcome :=
  fun _ => (.response 200 "", .response 200 "")

/-- A poll cycle whose retrieve fails with a transport-level comms error. -/
def exCommsCycleEnv : CycleEnv where
  now := 0
  connect := exConnectEnvUnused
  retrieve := .transportError "socket hang up"
  reconnect := exConnectEnvUnused
  reconnectSubs := exSubsOk

/-- A poll cycle that needs a token refresh and whose refresh fails with a
transport-level comms error. -/
def exRefreshFailEnv : CycleEnv where
  now := 1700
  connect := { auth := [.transportError "down"], loginOutcome := .transportError "down" }
  retrieve := .response 204 []
  reconnect := exConnectEnvUnused
  reconnectSubs := exSubsOk

/-- A poll cycle with a healthy network able to serve a full reconnect. -/
def exReconnectCycleEnv : CycleEnv where
  now := 0
  connect := exConnectEnvUnused
  retrieve := .response 204 []
  reconnect := exConnectEnvGood
  reconnectSubs := exSubsOk

/-- A client whose token expires at time 1000. -/
def exExpiryState : ClientState where
  certificateToken := none
  loginBearerToken := some "tok"
  tokenExpiry := 1000
  systems := []

/-! # Theorems -/

@[simp] theorem ovr_none {α : Type} (old : α) : ovr old none = old := rfl

@[simp] theorem ovr_some {α : Type} (old : α) (v : α) : ovr old (some v) = v := rfl

@[simp] theorem ovr_ovr {α : Type} (old : α) (new : Option α) :
    ovr (ovr old new) new = ovr old new := by
  cases new <;> rfl

@[simp] theorem ovrSome_none {α : Type} (old : Option α) : ovrSome old none = old := rfl

@[simp] theorem ovrSome_some {α : Type} (old : Option α) (v : α) :
    ovrSome old (some v) = some v := rfl

@[simp] theorem ovrSome_ovrSome {α : Type} (old : Option α) (new : Option α) :
    ovrSome (ovrSome old new) new = ovrSome old new := by
  cases new <;> rfl

@[simp] theorem isSome_ovrSome {α : Type} (old : Option α) (new : Option α) :
    (ovrSome old new).isSome = (old.isSome || new.isSome) := by
  cases new <;> simp [ovrSome]

@[simp] theorem ovrEnabled_none (old : Bool) : ovrEnabled old none = old := rfl

@[simp] theorem ovrEnabled_some (old : Bool) (v : ℚ) :
    ovrEnabled old (some v) = decide (v = 1) := rfl

@[simp] theorem ovrEnabled_ovrEnabled (old : Bool) (new : Option ℚ) :
    ovrEnabled (ovrEnabled old new) new = ovrEnabled old new := by
  cases new <;> rfl

/-- Normal form of `updateFromData`: every field of the result is the old
value overlaid with the fragment's value for that field, when present. -/
theorem updateFromData_fields (z : LennoxZone) (d : ZoneData) :
    z.updateFromData d = { z with
      name := ovr z.name (cfgField d (fun c => c.name))
      heatingOption := ovr z.heatingOption (cfgField d (fun c => c.heatingOption))
      coolingOption := ovr z.coolingOption (cfgField d (fun c => c.coolingOption))
      emergencyHeatingOption :=
        ovr z.emergencyHeatingOption (cfgField d (fun c => c.emergencyHeatingOption))
      humidificationOption :=
        ovr z.humidificationOption (cfgField d (fun c => c.humidificationOption))
      dehumidificationOption :=
        ovr z.dehumidificationOption (cfgField d (fun c => c.dehumidificationOption))
      minCsp := ovr z.minCsp (cfgField d (fun c => c.minCsp))
      maxCsp := ovr z.maxCsp (cfgField d (fun c => c.maxCsp))
      minCspC := ovr z.minCspC (cfgField d (fun c => c.minCspC))
      maxCspC := ovr z.maxCspC (cfgField d (fun c => c.maxCspC))
      minHsp := ovr z.minHsp (cfgField d (fun c => c.minHsp))
      maxHsp := ovr z.maxHsp (cfgField d (fun c => c.maxHsp))
      minHspC := ovr z.minHspC (cfgField d (fun c => c.minHspC))
      maxHspC := ovr z.maxHspC (cfgField d (fun c => c.maxHspC))
      zoneEnabled := ovrEnabled z.zoneEnabled (cfgField d (fun c => c.zoneEnabled))
      temperature := ovrSome z.temperature (stField d (fun s => s.temperature))
      temperatureC := ovrSome z.temperatureC (stField d (fun s => s.temperatureC))
      temperatureStatus := ovr z.temperatureStatus (stField d (fun s => s.temperatureStatus))
      humidity := ovrSome z.humidity (stField d (fun s => s.humidity))
      humidityStatus := ovr z.humidityStatus (stField d (fun s => s.humidityStatus))
      fan := ovr z.fan (stField d (fun s => s.fan))
      damper := ovr z.damper (stField d (fun s => s.damper))
      demand := ovr z.demand (stField d (fun s => s.demand))
      ventilation := ovr z.ventilation (stField d (fun s => s.ventilation))
      allergenDefender := ovr z.allergenDefender (stField d (fun s => s.allergenDefender))
      heatCoast := ovr z.heatCoast (stField d (fun s => s.heatCoast))
      coolCoast := ovr z.coolCoast (stField d (fun s => s.coolCoast))
      defrost := ovr z.defrost (stField d (fun s => s.defrost))
      aux := ovr z.aux (stField d (fun s => s.aux))
      tempOperation := ovr z.tempOperation (stField d (fun s => s.tempOperation))
      humOperation := ovr z.humOperation (stField d (fun s => s.humOperation))
      systemMode := ovr z.systemMode (perField d (fun p => p.systemMode))
      fanMode := ovr z.fanMode (perField d (fun p => p.fanMode))
      humidityMode := ovr z.humidityMode (perField d (fun p => p.humidityMode))
      csp := ovr z.csp (perField d (fun p => p.csp))
      cspC := ovr z.cspC (perField d (fun p => p.cspC))
      hsp := ovr z.hsp (perField d (fun p => p.hsp))
      hspC := ovr z.hspC (perField d (fun p => p.hspC))
      sp := ovr z.sp (perField d (fun p => p.sp))
      spC := ovr z.spC (perField d (fun p => p.spC))
      husp := ovr z.husp (perField d (fun p => p.husp))
      desp := ovr z.desp (perField d (fun p => p.desp)) } := by
  rcases d with ⟨did, cfg, stt⟩
  rcases cfg with _ | c <;> rcases stt with _ | s
  · rfl
  · rcases s with ⟨t, tc, ts, hu, hs, fn, da, de, ve, ad, hc, cc, df, ax, to2, ho, per⟩
    rcases per with _ | p <;> rfl
  · rfl
  · rcases s with ⟨t, tc, ts, hu, hs, fn, da, de, ve, ad, hc, cc, df, ax, to2, ho, per⟩
    rcases per with _ | p <;> rfl

/-- Applying a fragment that carries only `status.temperature` changes the
`temperature` field and nothing else. -/
theorem updateFromData_tempOnly (z : LennoxZone) (t : ℚ) :
    z.updateFromData (tempOnlyFrag t) = { z with temperature := some t } := by
  rw [updateFromData_fields]
  rfl

/-- `isActive` after one update: active before, or the fragment carried a
temperature. -/
theorem isActive_updateFromData (z : LennoxZone) (d : ZoneData) :
    (z.updateFromData d).isActive = (z.isActive || hasTemperature d) := by
  rw [updateFromData_fields]
  simp [LennoxZone.isActive, hasTemperature]

theorem applyAll_isActive (ds : List ZoneData) (z : LennoxZone) :
    (applyAll z ds).isActive = (z.isActive || ds.any hasTemperature) := by
  induction ds generalizing z with
  | nil => simp [applyAll]
  | cons d rest ih =>
    simp only [applyAll, List.foldl_cons, List.any_cons] at ih ⊢
    rw [ih, isActive_updateFromData, Bool.or_assoc]

/-- C5: a zone to which no fragment containing a temperature value has ever
been applied reports inactive; after one fragment whose status carries a
temperature it reports active; and it remains active under every later
sequence of fragments, including fragments that omit temperature. -/
theorem zone_activation_latch :
    (∀ (id : Nat) (name systemId : String) (ds : List ZoneData),
        (∀ d ∈ ds, hasTemperature d = false) →
        (applyAll (newLennoxZone id name systemId) ds).isActive = false) ∧
    (∀ (z : LennoxZone) (d : ZoneData), hasTemperature d = true →
        (z.updateFromData d).isActive = true) ∧
    (∀ (z : LennoxZone) (ds : List ZoneData), z.isActive = true →
        (applyAll z ds).isActive = true) := by
  refine ⟨?_, ?_, ?_⟩
  · intro id name systemId ds h
    rw [applyAll_isActive]
    have hz : (newLennoxZone id name systemId).isActive = false := rfl
    rw [hz]
    simp only [Bool.false_or]
    simp only [List.any_eq_false]
    intro d hd
    simp [h d hd]
  · intro z d h
    rw [isActive_updateFromData, h, Bool.or_true]
  · intro z ds h
    rw [applyAll_isActive, h, Bool.true_or]

/-- C5 witness: concrete instances of the three parts at the placeholder zone
of index 0, the fragment `{status: {temperature: 70}}` and a fragment that
omits temperature. -/
theorem zone_activation_latch_witness :
    (applyAll (newLennoxZone 0 "Zone 1" "sys1") [noTempFrag]).isActive = false ∧
    ((newLennoxZone 0 "Zone 1" "sys1").updateFromData (tempOnlyFrag 70)).isActive = true ∧
    (applyAll ((newLennoxZone 0 "Zone 1" "sys1").updateFromData (tempOnlyFrag 70))
        [noTempFrag]).isActive = true :=
  ⟨zone_activation_latch.1 0 "Zone 1" "sys1" [noTempFrag] (by intro d hd; simp at hd; rw [hd]; rfl),
   zone_activation_latch.2.1 (newLennoxZone 0 "Zone 1" "sys1") (tempOnlyFrag 70) rfl,
   zone_activation_latch.2.2 ((newLennoxZone 0 "Zone 1" "sys1").updateFromData (tempOnlyFrag 70))
     [noTempFrag]
     (zone_activation_latch.2.1 (newLennoxZone 0 "Zone 1" "sys1") (tempOnlyFrag 70) rfl)⟩

/-- C6: applying a fragment changes only the zone fields for which the
fragment's config/status/period sub-objects carry a present value; every
field whose fragment entry is absent keeps its previous value, the fields
`updateFromData` never writes are always unchanged, and in particular a
fragment containing only `{status: {temperature: t}}` changes only
`temperature`. -/
theorem zone_partial_merge_frame (z : LennoxZone) (d : ZoneData) :
    (cfgField d (fun c => c.name) = none → (z.updateFromData d).name = z.name) ∧
    (cfgField d (fun c => c.heatingOption) = none →
      (z.updateFromData d).heatingOption = z.heatingOption) ∧
    (cfgField d (fun c => c.coolingOption) = none →
      (z.updateFromData d).coolingOption = z.coolingOption) ∧
    (cfgField d (fun c => c.emergencyHeatingOption) = none →
      (z.updateFromData d).emergencyHeatingOption = z.emergencyHeatingOption) ∧
    (cfgField d (fun c => c.humidificationOption) = none →
      (z.updateFromData d).humidificationOption = z.humidificationOption) ∧
    (cfgField d (fun c => c.dehumidificationOption) = none →
      (z.updateFromData d).dehumidificationOption = z.dehumidificationOption) ∧
    (cfgField d (fun c => c.minCsp) = none → (z.updateFromData d).minCsp = z.minCsp) ∧
    (cfgField d (fun c => c.maxCsp) = none → (z.updateFromData d).maxCsp = z.maxCsp) ∧
    (cfgField d (fun c => c.minCspC) = none → (z.updateFromData d).minCspC = z.minCspC) ∧
    (cfgField d (fun c => c.maxCspC) = none → (z.updateFromData d).maxCspC = z.maxCspC) ∧
    (cfgField d (fun c => c.minHsp) = none → (z.updateFromData d).minHsp = z.minHsp) ∧
    (cfgField d (fun c => c.maxHsp) = none → (z.updateFromData d).maxHsp = z.maxHsp) ∧
    (cfgField d (fun c => c.minHspC) = none → (z.updateFromData d).minHspC = z.minHspC) ∧
    (cfgField d (fun c => c.maxHspC) = none → (z.updateFromData d).maxHspC = z.maxHspC) ∧
    (cfgField d (fun c => c.zoneEnabled) = none →
      (z.updateFromData d).zoneEnabled = z.zoneEnabled) ∧
    (stField d (fun s => s.temperature) = none →
      (z.updateFromData d).temperature = z.temperature) ∧
    (stField d (fun s => s.temperatureC) = none →
      (z.updateFromData d).temperatureC = z.temperatureC) ∧
    (stField d (fun s => s.temperatureStatus) = none →
      (z.updateFromData d).temperatureStatus = z.temperatureStatus) ∧
    (stField d (fun s => s.humidity) = none → (z.updateFromData d).humidity = z.humidity) ∧
    (stField d (fun s => s.humidityStatus) = none →
      (z.updateFromData d).humidityStatus = z.humidityStatus) ∧
    (stField d (fun s => s.fan) = none → (z.updateFromData d).fan = z.fan) ∧
    (stField d (fun s => s.damper) = none → (z.updateFromData d).damper = z.damper) ∧
    (stField d (fun s => s.demand) = none → (z.updateFromData d).demand = z.demand) ∧
    (stField d (fun s => s.ventilation) = none →
      (z.updateFromData d).ventilation = z.ventilation) ∧
    (stField d (fun s => s.allergenDefender) = none →
      (z.updateFromData d).allergenDefender = z.allergenDefender) ∧
    (stField d (fun s => s.heatCoast) = none →
      (z.updateFromData d).heatCoast = z.heatCoast) ∧
    (stField d (fun s => s.coolCoast) = none →
      (z.updateFromData d).coolCoast = z.coolCoast) ∧
    (stField d (fun s => s.defrost) = none → (z.updateFromData d).defrost = z.defrost) ∧
    (stField d (fun s => s.aux) = none → (z.updateFromData d).aux = z.aux) ∧
    (stField d (fun s => s.tempOperation) = none →
      (z.updateFromData d).tempOperation = z.tempOperation) ∧
    (stField d (fun s => s.humOperation) = none →
      (z.updateFromData d).humOperation = z.humOperation) ∧
    (perField d (fun p => p.systemMode) = none →
      (z.updateFromData d).systemMode = z.systemMode) ∧
    (perField d (fun p => p.fanMode) = none → (z.updateFromData d).fanMode = z.fanMode) ∧
    (perField d (fun p => p.humidityMode) = none →
      (z.updateFromData d).humidityMode = z.humidityMode) ∧
    (perField d (fun p => p.csp) = none → (z.updateFromData d).csp = z.csp) ∧
    (perField d (fun p => p.cspC) = none → (z.updateFromData d).cspC = z.cspC) ∧
    (perField d (fun p => p.hsp) = none → (z.updateFromData d).hsp = z.hsp) ∧
    (perField d (fun p => p.hspC) = none → (z.updateFromData d).hspC = z.hspC) ∧
    (perField d (fun p => p.sp) = none → (z.updateFromData d).sp = z.sp) ∧
    (perField d (fun p => p.spC) = none → (z.updateFromData d).spC = z.spC) ∧
    (perField d (fun p => p.husp) = none → (z.updateFromData d).husp = z.husp) ∧
    (perField d (fun p => p.desp) = none → (z.updateFromData d).desp = z.desp) ∧
    (z.updateFromData d).id = z.id ∧
    (z.updateFromData d).systemId = z.systemId ∧
    (z.updateFromData d).systemName = z.systemName ∧
    (z.updateFromData d).productType = z.productType ∧
    (z.updateFromData d).firmwareVersion = z.firmwareVersion ∧
    (z.updateFromData d).numberOfZones = z.numberOfZones ∧
    (∀ t : ℚ, z.updateFromData (tempOnlyFrag t) = { z with temperature := some t }) := by
  simp only [updateFromData_fields]
  repeat' apply And.intro
  all_goals first
    | exact fun t => updateFromData_tempOnly z t
    | (intro h; simp [h])
    | simp

/-- C6 witness: at the concrete zone of index 0 and the fragment
`{status: {temperature: 72}}`, the config field `name`, the status field
`humidity` and the period field `hsp` are unchanged, and the whole update
equals the single-field overwrite. -/
theorem zone_partial_merge_frame_witness :
    ((newLennoxZone 0 "Zone 1" "sys1").updateFromData (tempOnlyFrag 72)).name
        = (newLennoxZone 0 "Zone 1" "sys1").name ∧
    ((newLennoxZone 0 "Zone 1" "sys1").updateFromData (tempOnlyFrag 72)).humidity
        = (newLennoxZone 0 "Zone 1" "sys1").humidity ∧
    ((newLennoxZone 0 "Zone 1" "sys1").updateFromData (tempOnlyFrag 72)).hsp
        = (newLennoxZone 0 "Zone 1" "sys1").hsp ∧
    (newLennoxZone 0 "Zone 1" "sys1").updateFromData (tempOnlyFrag 72)
        = { newLennoxZone 0 "Zone 1" "sys1" with temperature := some 72 } := by
  have h := zone_partial_merge_frame (newLennoxZone 0 "Zone 1" "sys1") (tempOnlyFrag 72)
  exact ⟨h.1 rfl, h.2.2.2.2.2.2.2.2.2.2.2.2.2.2.2.2.2.2.1 rfl,
    h.2.2.2.2.2.2.2.2.2.2.2.2.2.2.2.2.2.2.2.2.2.2.2.2.2.2.2.2.2.2.2.2.2.2.2.2.1 rfl,
    h.2.2.2.2.2.2.2.2.2.2.2.2.2.2.2.2.2.2.2.2.2.2.2.2.2.2.2.2.2.2.2.2.2.2.2.2.2.2.2.2.2.2.2.2.2.2.2.2 72⟩

/-- C7: fragment application is idempotent: applying the same fragment twice
in succession yields exactly the state of applying it once. -/
theorem updateFromData_idempotent (z : LennoxZone) (d : ZoneData) :
    (z.updateFromData d).updateFromData d = z.updateFromData d := by
  simp only [updateFromData_fields]
  simp

/-- C8: the manual-mode schedule id for a zone is `16 + zone.id` and every
`setTemperature` command addresses it; in particular `setTemperature` with
`hsp = 68` on the zone with id 1 publishes schedule id 17 with a period
carrying `hsp = 68` and `hspC = 20.0`. -/
theorem manual_schedule_setTemperature (z : LennoxZone) (hspIn cspIn : Option ℚ) :
    getManualModeScheduleId z = 16 + z.id ∧
    (setTemperatureCmd z hspIn cspIn).scheduleId = 16 + z.id ∧
    setTemperatureCmd (newLennoxZone 1 "Zone 2" "sys1") (some 68) none
      = { scheduleId := 17
          periods := [(0, { hsp := some 68, hspC := some 20, csp := none, cspC := none })] } := by
  refine ⟨rfl, rfl, ?_⟩
  simp only [setTemperatureCmd, getManualModeScheduleId, newLennoxZone, Option.map_some,
    Option.map_none]
  norm_num [fToC, mathRound]

/-- C9: with expiry `T` and buffer 300 s, `needsTokenRefresh` is false at
every time strictly before `T - 300` and true at every time at or past
`T - 300`, in particular at or past `T`. -/
theorem needsTokenRefresh_threshold (now : ℚ) (st : ClientState) :
    (now < st.tokenExpiry - 300 → needsTokenRefresh now st = false) ∧
    (st.tokenExpiry - 300 ≤ now → needsTokenRefresh now st = true) ∧
    (st.tokenExpiry ≤ now → needsTokenRefresh now st = true) := by
  refine ⟨?_, ?_, ?_⟩ <;> intro h <;>
    simp only [needsTokenRefresh, TOKEN_REFRESH_BUFFER, ge_iff_le, decide_eq_false_iff_not,
      decide_eq_true_eq, not_le]
  · linarith
  · linarith
  · linarith

/-- C9 witness: with expiry 1000 the check is false at 699 and true at 700
and at 1000. -/
theorem needsTokenRefresh_threshold_witness :
    needsTokenRefresh 699 exExpiryState = false ∧
    needsTokenRefresh 700 exExpiryState = true ∧
    needsTokenRefresh 1000 exExpiryState = true :=
  ⟨(needsTokenRefresh_threshold 699 exExpiryState).1 (by norm_num [exExpiryState]),
   (needsTokenRefresh_threshold 700 exExpiryState).2.1 (by norm_num [exExpiryState]),
   (needsTokenRefresh_threshold 1000 exExpiryState).2.2 (by norm_num [exExpiryState])⟩

/-- C10: every published setpoint pair carries `Math.round(h)` as the
Fahrenheit value but computes the Celsius mirror from the unrounded input;
at the non-integer input 68.5 the two published values denote different
temperatures: the command publishes F = 69 and C = 20.3, while 69 F
converts to 20.6 C. -/
theorem setTemperature_rounding_mismatch (z : LennoxZone) (h c : ℚ) :
    ((setTemperatureCmd z (some h) (some c)).periods =
      [(0, { hsp := some ((mathRound h : ℤ) : ℚ), hspC := some (fToC h),
             csp := some ((mathRound c : ℤ) : ℚ), cspC := some (fToC c) })]) ∧
    ((137/2 : ℚ).den ≠ 1) ∧
    ((mathRound (137/2 : ℚ) : ℤ) : ℚ) = 69 ∧
    fToC (137/2) = 203/10 ∧
    fToC 69 = 206/10 ∧
    fToC ((mathRound (137/2 : ℚ) : ℤ) : ℚ) ≠ fToC (137/2) := by
  refine ⟨rfl, by norm_num, ?_, ?_, ?_, ?_⟩
  · norm_num [mathRound]
  · norm_num [fToC, mathRound]
  · norm_num [fToC, mathRound]
  · norm_num [fToC, mathRound]

/-! ## Map and discovery lemmas (for C1) -/

theorem mapGet_mapSet {κ α : Type} [DecidableEq κ] (m : List (κ × α)) (k k1 : κ) (v : α) :
    mapGet (mapSet m k v) k1 = if k = k1 then some v else mapGet m k1 := by
  induction m with
  | nil => simp [mapGet, mapSet]
  | cons p rest ih =>
    obtain ⟨k2, v2⟩ := p
    by_cases h2 : k2 = k
    · subst h2
      by_cases h1 : k2 = k1 <;> simp [mapGet, mapSet, h1]
    · by_cases h1 : k2 = k1 <;> by_cases hk : k = k1 <;>
        simp_all [mapGet, mapSet, ih]

theorem mapSet_isSome {κ α : Type} [DecidableEq κ] (m : List (κ × α)) (k k1 : κ) (v : α)
    (h : (mapGet m k1).isSome) : (mapGet (mapSet m k v) k1).isSome := by
  rw [mapGet_mapSet]
  split_ifs <;> simp [h]

theorem discoverSystem_isSome (acc : List (String × LennoxSystem)) (hn : String)
    (pres : Option (List (String × String))) (hs : HomeSystemRec) (k : String)
    (h : (mapGet acc k).isSome) :
    (mapGet (discoverSystem acc hn pres hs) k).isSome :=
  mapSet_isSome _ _ _ _ h

theorem discoverSystem_other (acc : List (String × LennoxSystem)) (hn : String)
    (pres : Option (List (String × String))) (hs : HomeSystemRec) (k : String)
    (h : hs.sysId ≠ k) :
    mapGet (discoverSystem acc hn pres hs) k = mapGet acc k := by
  simp only [discoverSystem, mapGet_mapSet, if_neg h]

theorem discoverSystem_fresh_self (acc : List (String × LennoxSystem)) (hn : String)
    (pres : Option (List (String × String))) (hs : HomeSystemRec) (k : String)
    (h : hs.sysId = k) :
    freshAt (discoverSystem acc hn pres hs) k := by
  refine ⟨{ newLennoxSystem hs.sysId hn with
            cloudStatus := presenceLookup pres hs.sysId "online" }, ?_, rfl⟩
  simp [discoverSystem, mapGet_mapSet, h, newLennoxSystem]

theorem discoverSystem_fresh_pres (acc : List (String × LennoxSystem)) (hn : String)
    (pres : Option (List (String × String))) (hs : HomeSystemRec) (k : String)
    (h : freshAt acc k) :
    freshAt (discoverSystem acc hn pres hs) k := by
  by_cases he : hs.sysId = k
  · exact discoverSystem_fresh_self acc hn pres hs k he
  · obtain ⟨s, hget, hz⟩ := h
    exact ⟨s, by rw [discoverSystem_other acc hn pres hs k he]; exact hget, hz⟩

theorem discoverInHome_isSome (pres : Option (List (String × String))) (hn : String)
    (hss : List HomeSystemRec) (acc : List (String × LennoxSystem)) (k : String)
    (h : (mapGet acc k).isSome) :
    (mapGet (discoverInHome pres hn acc hss) k).isSome := by
  induction hss generalizing acc with
  | nil => exact h
  | cons hs rest ih =>
    simp only [discoverInHome, List.foldl_cons] at ih ⊢
    exact ih _ (discoverSystem_isSome _ _ _ _ _ h)

theorem discoverInHome_other (pres : Option (List (String × String))) (hn : String)
    (hss : List HomeSystemRec) (acc : List (String × LennoxSystem)) (k : String)
    (h : k ∉ hss.map (fun hs => hs.sysId)) :
    mapGet (discoverInHome pres hn acc hss) k = mapGet acc k := by
  induction hss generalizing acc with
  | nil => rfl
  | cons hs rest ih =>
    simp only [List.map_cons, List.mem_cons, not_or] at h
    simp only [discoverInHome, List.foldl_cons] at ih ⊢
    rw [ih _ (by simpa using h.2), discoverSystem_other _ _ _ _ _ (fun e => h.1 e.symm)]

theorem discoverInHome_fresh_pres (pres : Option (List (String × String))) (hn : String)
    (hss : List HomeSystemRec) (acc : List (String × LennoxSystem)) (k : String)
    (h : freshAt acc k) :
    freshAt (discoverInHome pres hn acc hss) k := by
  induction hss generalizing acc with
  | nil => exact h
  | cons hs rest ih =>
    simp only [discoverInHome, List.foldl_cons] at ih ⊢
    exact ih _ (discoverSystem_fresh_pres _ _ _ _ _ h)

theorem discoverInHome_fresh_mem (pres : Option (List (String × String))) (hn : String)
    (hss : List HomeSystemRec) (acc : List (String × LennoxSystem)) (k : String)
    (h : k ∈ hss.map (fun hs => hs.sysId)) :
    freshAt (discoverInHome pres hn acc hss) k := by
  induction hss generalizing acc with
  | nil => simp at h
  | cons hs rest ih =>
    simp only [List.map_cons, List.mem_cons] at h
    simp only [discoverInHome, List.foldl_cons] at ih ⊢
    rcases h with h | h
    · have hfresh := discoverSystem_fresh_self acc hn pres hs k h.symm
      have := discoverInHome_fresh_pres pres hn rest (discoverSystem acc hn pres hs) k hfresh
      simpa [discoverInHome] using this
    · exact ih _ h

theorem discoverAll_isSome (pres : Option (List (String × String)))
    (homes : List HomeRec) (acc : List (String × LennoxSystem)) (k : String)
    (h : (mapGet acc k).isSome) :
    (mapGet (discoverAll pres acc homes) k).isSome := by
  induction homes generalizing acc with
  | nil => exact h
  | cons hm rest ih =>
    simp only [discoverAll, List.foldl_cons] at ih ⊢
    exact ih _ (discoverInHome_isSome _ _ _ _ _ h)

theorem discoverAll_other (pres : Option (List (String × String)))
    (homes : List HomeRec) (acc : List (String × LennoxSystem)) (k : String)
    (h : ∀ hm ∈ homes, k ∉ homeIds hm) :
    mapGet (discoverAll pres acc homes) k = mapGet acc k := by
  induction homes generalizing acc with
  | nil => rfl
  | cons hm rest ih =>
    simp only [discoverAll, List.foldl_cons] at ih ⊢
    rw [ih _ (fun x hx => h x (List.mem_cons_of_mem _ hx)),
      discoverInHome_other _ _ _ _ _ (h hm (List.mem_cons_self _ _))]

theorem discoverAll_fresh_pres (pres : Option (List (String × String)))
    (homes : List HomeRec) (acc : List (String × LennoxSystem)) (k : String)
    (h : freshAt acc k) :
    freshAt (discoverAll pres acc homes) k := by
  induction homes generalizing acc with
  | nil => exact h
  | cons hm rest ih =>
    simp only [discoverAll, List.foldl_cons] at ih ⊢
    exact ih _ (discoverInHome_fresh_pres _ _ _ _ _ h)

theorem discoverAll_fresh_mem (pres : Option (List (String × String)))
    (homes : List HomeRec) (acc : List (String × LennoxSystem)) (k : String)
    (h : ∃ hm ∈ homes, k ∈ homeIds hm) :
    freshAt (discoverAll pres acc homes) k := by
  induction homes generalizing acc with
  | nil => simp at h
  | cons hm rest ih =>
    simp only [discoverAll, List.foldl_cons] at ih ⊢
    rcases h with ⟨hm1, hmem, hk⟩
    rcases List.mem_cons.mp hmem with he | he
    · subst he
      have hfresh := discoverInHome_fresh_mem pres hm1.name hm1.systems acc k (by simpa [homeIds] using hk)
      have := discoverAll_fresh_pres pres rest (discoverInHome pres hm1.name acc hm1.systems) k hfresh
      simpa [discoverAll] using this
    · exact ih _ ⟨hm1, he, hk⟩

/-- C1 (amended): a token refresh (`authenticate` + `login` re-running
`processLoginResponse`) never removes a system from the collection, and a
system not re-listed in the new login response keeps its state; but every
system the response re-lists is replaced by a freshly constructed
`LennoxSystem` with an empty zone map — its zones and their merged state
are reset rather than kept intact. -/
theorem login_discovery_preservation (st : ClientState) (resp : LoginResp) (k : String) :
    ((mapGet st.systems k).isSome →
      (mapGet (processLoginResponse st resp).1.systems k).isSome) ∧
    (k ∉ listedIds resp →
      mapGet (processLoginResponse st resp).1.systems k = mapGet st.systems k) ∧
    (resp.userToken.isSome → k ∈ listedIds resp →
      ∃ s, mapGet (processLoginResponse st resp).1.systems k = some s ∧ s.zones = []) := by
  rcases hut : resp.userToken with _ | ut
  · simp [processLoginResponse, hut]
  · simp only [processLoginResponse, hut]
    refine ⟨?_, ?_, ?_⟩
    · intro h
      exact discoverAll_isSome _ _ _ _ h
    · intro h
      apply discoverAll_other
      intro hm hmem hk
      exact h (by simp only [listedIds, List.mem_flatMap]; exact ⟨hm, hmem, hk⟩)
    · intro _ hmem
      apply discoverAll_fresh_mem
      simpa only [listedIds, List.mem_flatMap] using hmem

/-- C1 witness: a client that already holds `sys1` still holds a system
under that key after a refresh whose response re-lists it, and that system
is fresh (no zones). -/
theorem login_discovery_preservation_witness :
    (mapGet (processLoginResponse exStateBefore exLoginResp).1.systems "sys1").isSome ∧
    (∃ s, mapGet (processLoginResponse exStateBefore exLoginResp).1.systems "sys1" = some s ∧
      s.zones = []) :=
  ⟨(login_discovery_preservation exStateBefore exLoginResp "sys1").1 rfl,
   (login_discovery_preservation exStateBefore exLoginResp "sys1").2.2 rfl
     (by simp [listedIds, exLoginResp, homeIds])⟩

/-- C1 counterexample: before the refresh, `sys1` owns one active zone;
`processLoginResponse` of a response re-listing `sys1` leaves `sys1`
present but with an empty zone map — the zone state is destroyed, so the
claim that zones survive a token refresh intact is false. -/
theorem login_discovery_resets_zones_cex :
    (mapGet exStateBefore.systems "sys1").map LennoxSystem.zones
      = some [(0, exActiveZone)] ∧
    (mapGet (processLoginResponse exStateBefore exLoginResp).1.systems "sys1").map
      LennoxSystem.zones = some [] := by
  constructor
  · rfl
  · simp [processLoginResponse, exStateBefore, exLoginResp, discoverAll, discoverInHome,
      discoverSystem, mapSet, mapGet, newLennoxSystem, presenceLookup, exSystemWithZone]

/-! ## authenticate() lemmas (for C3) -/

theorem authenticateLoop_transport (st : ClientState) (retry : Nat) (lastError m : String)
    (rest : List AttemptOutcome) :
    authenticateLoop st retry lastError (.transportError m :: rest)
      = (st, some (.commsError m)) := rfl

theorem authenticateLoop_non200 (st : ClientState) (retry : Nat) (lastError : String)
    (s : Nat) (t : String) (tok : Option String) (rest : List AttemptOutcome)
    (h : s ≠ 200) :
    authenticateLoop st retry lastError (.response s t tok :: rest)
      = authenticateLoop st (retry + 1) (retryMessage retry s t) rest := by
  simp only [authenticateLoop, if_neg h]

/-- C3 (amended): `authenticate` retries only on non-200 responses: five
consecutive non-200 responses exhaust the retries and fail with
`EC_AUTHENTICATE` carrying the last recorded failure text (built from the
fifth response); but a transport-level error — which `request` wraps into a
`LennoxS30Error` with code `EC_COMMS_ERROR` — is rethrown by the catch at
once and aborts `authenticate` without any further attempt, propagating the
comms error rather than `AuthFailed`. -/
theorem authenticate_retry_behavior (st : ClientState)
    (s0 s1 s2 s3 s4 : Nat) (t0 t1 t2 t3 t4 : String)
    (k0 k1 k2 k3 k4 : Option String) (rest : List AttemptOutcome)
    (h0 : s0 ≠ 200) (h1 : s1 ≠ 200) (h2 : s2 ≠ 200) (h3 : s3 ≠ 200) (h4 : s4 ≠ 200) :
    (authenticate st
        (.response s0 t0 k0 :: .response s1 t1 k1 :: .response s2 t2 k2 ::
          .response s3 t3 k3 :: .response s4 t4 k4 :: rest)
      = (st, some (.authenticateFailed (retryMessage 4 s4 t4)))) ∧
    (∀ (m : String) (rest2 : List AttemptOutcome),
      authenticate st (.transportError m :: rest2) = (st, some (.commsError m))) := by
  constructor
  · have htake :
        (AttemptOutcome.response s0 t0 k0 :: .response s1 t1 k1 :: .response s2 t2 k2 ::
          .response s3 t3 k3 :: .response s4 t4 k4 :: rest).take MAX_AUTH_RETRIES
        = [.response s0 t0 k0, .response s1 t1 k1, .response s2 t2 k2,
           .response s3 t3 k3, .response s4 t4 k4] := rfl
    unfold authenticate
    rw [htake, authenticateLoop_non200 _ _ _ _ _ _ _ h0,
      authenticateLoop_non200 _ _ _ _ _ _ _ h1, authenticateLoop_non200 _ _ _ _ _ _ _ h2,
      authenticateLoop_non200 _ _ _ _ _ _ _ h3, authenticateLoop_non200 _ _ _ _ _ _ _ h4]
    norm_num [authenticateLoop]
  · intro m rest2
    rfl

/-- C3 witness: five non-200 responses (500, 500, 500, 500, 404) end in
`AuthFailed` carrying the text recorded for the fifth. -/
theorem authenticate_retry_behavior_witness :
    authenticate exHealthyClient
        [.response 500 "e0" none, .response 500 "e1" none, .response 500 "e2" none,
         .response 500 "e3" none, .response 404 "e4" none]
      = (exHealthyClient, some (.authenticateFailed (retryMessage 4 404 "e4"))) :=
  (authenticate_retry_behavior exHealthyClient 500 500 500 500 404 "e0" "e1" "e2" "e3" "e4"
    none none none none none [] (by decide) (by decide) (by decide) (by decide) (by decide)).1

/-- C3 counterexample: the first attempt fails at the transport level while
the second attempt would succeed; `authenticate` aborts at once with the
comms error instead of retrying (the claim says every failing attempt is
retried up to 5 times and exhaustion yields `AuthFailed`). -/
theorem authenticate_transport_no_retry_cex :
    authenticate exHealthyClient
        [.transportError "boom", .response 200 "ok" (some "crt")]
      = (exHealthyClient, some (.commsError "boom")) := rfl

/-! ## Pump cycle theorems (C4, C2) -/

theorem needsTokenRefresh_false_of_lt (now : ℚ) (st : ClientState)
    (h : now < st.tokenExpiry - TOKEN_REFRESH_BUFFER) :
    needsTokenRefresh now st = false := by
  simp only [needsTokenRefresh, ge_iff_le, decide_eq_false_iff_not, not_le]
  exact h

theorem needsTokenRefresh_true_of_le (now : ℚ) (st : ClientState)
    (h : st.tokenExpiry - TOKEN_REFRESH_BUFFER ≤ now) :
    needsTokenRefresh now st = true := by
  simp only [needsTokenRefresh, ge_iff_le, decide_eq_true_eq]
  exact h

/-- C4 (amended): the consecutive-failure threshold applies only to errors
that propagate out of `messagePump` (token-refresh failures and
unauthorized): for a propagating non-unauthorized error, a cycle whose
incremented counter is below `MAX_CONSECUTIVE_ERRORS` attempts no reconnect
and just counts, and the cycle reaching the threshold attempts the full
reconnect. A retrieve-phase transport comms error, by contrast, is absorbed
inside `messagePump` (which returns false): the cycle counts as a success,
resets the counter to 0 and never triggers a reconnect, however often it
repeats. -/
theorem pump_failure_threshold_behavior :
    (∀ (ps : PumpState) (env : CycleEnv) (st1 : ClientState) (e : LxError),
      messagePump ps.client env = (st1, .error e) → e.isUnauthorized = false →
      (((pumpCycle ps env).2 = true) ↔ MAX_CONSECUTIVE_ERRORS ≤ ps.consecutiveErrors + 1) ∧
      (ps.consecutiveErrors + 1 < MAX_CONSECUTIVE_ERRORS →
        pumpCycle ps env
          = ({ client := st1, consecutiveErrors := ps.consecutiveErrors + 1 }, false))) ∧
    (∀ (ps : PumpState) (env : CycleEnv) (m b : String),
      needsTokenRefresh env.now ps.client = false →
      ps.client.loginBearerToken = some b → b ≠ "" →
      env.retrieve = .transportError m →
      pumpCycle ps env = ({ client := ps.client, consecutiveErrors := 0 }, false)) := by
  constructor
  · intro ps env st1 e hm hu
    unfold pumpCycle
    rw [hm]
    simp only [hu, Bool.false_eq_true, if_false]
    constructor
    · by_cases hn : MAX_CONSECUTIVE_ERRORS ≤ ps.consecutiveErrors + 1 <;> simp [hn]
    · intro hlt
      have hn : ¬ MAX_CONSECUTIVE_ERRORS ≤ ps.consecutiveErrors + 1 := by omega
      simp [hn]
  · intro ps env m b hrefresh hbearer hb hretr
    unfold pumpCycle messagePump
    simp [hrefresh, hbearer, hretr, hb]

/-- C4 witness: a retrieve comms error is absorbed (no reconnect, counter
reset); a refresh failure at counter 4 reaches the threshold and attempts a
reconnect; the same failure at counter 0 does not. -/
theorem pump_failure_threshold_witness :
    pumpCycle { client := exHealthyClient, consecutiveErrors := 0 } exCommsCycleEnv
      = ({ client := exHealthyClient, consecutiveErrors := 0 }, false) ∧
    (pumpCycle { client := exHealthyClient, consecutiveErrors := 4 } exRefreshFailEnv).2 = true ∧
    (pumpCycle { client := exHealthyClient, consecutiveErrors := 0 } exRefreshFailEnv).2 = false := by
  have href : needsTokenRefresh exRefreshFailEnv.now exHealthyClient = true :=
    needsTokenRefresh_true_of_le _ _
      (by norm_num [exRefreshFailEnv, exHealthyClient, TOKEN_REFRESH_BUFFER])
  have hm : messagePump exHealthyClient exRefreshFailEnv
      = (exHealthyClient, .error (.commsError "down")) := by
    unfold messagePump
    rw [href]
    simp [serverConnect, authenticate, authenticateLoop, MAX_AUTH_RETRIES, exRefreshFailEnv]
  refine ⟨?_, ?_, ?_⟩
  · exact pump_failure_threshold_behavior.2
      { client := exHealthyClient, consecutiveErrors := 0 } exCommsCycleEnv
      "socket hang up" "tok"
      (by norm_num [needsTokenRefresh, TOKEN_REFRESH_BUFFER, exHealthyClient, exCommsCycleEnv])
      rfl (by decide) rfl
  · exact ((pump_failure_threshold_behavior.1
      { client := exHealthyClient, consecutiveErrors := 4 } exRefreshFailEnv
      exHealthyClient (.commsError "down") hm rfl).1).mpr (by norm_num [MAX_CONSECUTIVE_ERRORS])
  · have h2 := (pump_failure_threshold_behavior.1
      { client := exHealthyClient, consecutiveErrors := 0 } exRefreshFailEnv
      exHealthyClient (.commsError "down") hm rfl).2
      (by norm_num [MAX_CONSECUTIVE_ERRORS])
    rw [h2]

/-- C4 counterexample: five consecutive poll cycles all failing with a
retrieve-phase transport comms error leave the counter at 0 and the fifth
cycle attempts no reconnect — the claimed transition to Reconnecting on the
Nth consecutive comms failure never happens for this error class. -/
theorem pump_comms_error_no_reconnect_cex :
    (pumpCycle (runPump { client := exHealthyClient, consecutiveErrors := 0 }
        (List.replicate 4 exCommsCycleEnv)) exCommsCycleEnv).2 = false ∧
    (runPump { client := exHealthyClient, consecutiveErrors := 0 }
        (List.replicate 4 exCommsCycleEnv)).consecutiveErrors = 0 := by
  have href : needsTokenRefresh exCommsCycleEnv.now exHealthyClient = false :=
    needsTokenRefresh_false_of_lt _ _
      (by norm_num [exCommsCycleEnv, exHealthyClient, TOKEN_REFRESH_BUFFER])
  have hm : messagePump exHealthyClient exCommsCycleEnv = (exHealthyClient, .ok false) := by
    unfold messagePump
    rw [href]
    simp [exHealthyClient, exCommsCycleEnv]
  have hstep : pumpCycle { client := exHealthyClient, consecutiveErrors := 0 } exCommsCycleEnv
      = ({ client := exHealthyClient, consecutiveErrors := 0 }, false) := by
    unfold pumpCycle
    rw [hm]
  have hrun : runPump { client := exHealthyClient, consecutiveErrors := 0 }
      (List.replicate 4 exCommsCycleEnv)
      = { client := exHealthyClient, consecutiveErrors := 0 } := by
    simp [runPump, List.replicate, hstep]
  rw [hrun, hstep]
  exact ⟨rfl, rfl⟩

/-- C2 (amended): `shutdown()` clears the certificate token, the bearer
token and the system collection, and is idempotent; but it does not stop
the message pump loop — the loop's condition is the constant `true` and
`shutdown` signals nothing that could end it. -/
theorem shutdown_clears_state (st : ClientState) :
    (shutdown st).certificateToken = none ∧
    (shutdown st).loginBearerToken = none ∧
    (shutdown st).systems = [] ∧
    shutdown (shutdown st) = shutdown st ∧
    pumpLoopGuard (shutdown st) = true :=
  ⟨rfl, rfl, rfl, rfl, rfl⟩

/-- C2 counterexample: after `shutdown()` the pump loop's guard still holds,
and the next pump cycle still runs: with a healthy network it reconnects
and restores a bearer token into the supposedly shut-down client — the
claim that `shutdown()` stops the message pump loop is false. -/
theorem shutdown_leaves_pump_running_cex :
    pumpLoopGuard (shutdown exStateBefore) = true ∧
    (pumpCycle { client := shutdown exStateBefore, consecutiveErrors := 0 }
        exReconnectCycleEnv).1.client.loginBearerToken = some "tok2" := by
  refine ⟨rfl, ?_⟩
  have href : needsTokenRefresh exReconnectCycleEnv.now (shutdown exStateBefore) = false :=
    needsTokenRefresh_false_of_lt _ _
      (by norm_num [exReconnectCycleEnv, shutdown, exStateBefore, TOKEN_REFRESH_BUFFER])
  unfold pumpCycle messagePump
  rw [href]
  simp [shutdown, exStateBefore, exReconnectCycleEnv, exConnectEnvGood, exConnectEnvUnused,
    attemptReconnect, serverConnect, authenticate, authenticateLoop, MAX_AUTH_RETRIES,
    login, processLoginResponse, exLoginResp, discoverAll, discoverInHome, discoverSystem,
    mapSet, mapGet, newLennoxSystem, presenceLookup, subscribeAll, subscribeAllFrom,
    subscribe, requestData, exSubsOk, LxError.isUnauthorized]

end LennoxS30
